import Mathlib

/-!
Shallow embedding of the VoiceForge live-session hook (useGeminiLive) and its
playback scheduler, together with proofs about the session state machine,
the gapless playback scheduling, interruption handling, connect failure
handling, teardown and the live voice-parameter update message.

Device times, chunk durations, speeds and the volume metric are modelled as
rationals; the pending set of scheduled audio sources is a list of handles;
the environment of a connect attempt (credential lookup, microphone
acquisition, channel open) is passed in explicitly so that every failure
path of the source can be exercised.
-/

namespace VoiceForge

/-- Connection lifecycle states of the session, from types.ts. -/
inductive ConnectionState where
  | DISCONNECTED
  | CONNECTING
  | CONNECTED
  | ERROR
deriving DecidableEq, Repr

/-- Voice configuration value object, from types.ts (activeClonedVoiceId is
carried separately as the optional cloned style string, as in the hook). -/
structure VoiceConfig where
  voiceName : String
  speed : ℚ
  pitch : ℚ
  tone : String
  systemInstruction : String
deriving DecidableEq, Repr

/-- One scheduled AudioBufferSourceNode: its committed start time and
duration, whether its playback already finished, and whether stop() has
been called on it. -/
structure SourceHandle where
  startTime : ℚ
  duration : ℚ
  finished : Bool
  stopped : Bool
deriving DecidableEq, Repr

/-- The mutable state held by the useGeminiLive hook: the React state cells
(connectionState, volume, error) and the refs.  Device and node refs are
modelled by whether the ref currently holds a live handle; sessionRef holds
the id of the session promise it was last assigned. -/
structure HookState where
  connectionState : ConnectionState
  volume : ℚ
  error : Option String
  inputAudioContext : Bool
  outputAudioContext : Bool
  stream : Bool
  processor : Bool
  inputSource : Bool
  analyser : Bool
  gainNode : Bool
  session : Option ℕ
  nextStartTime : ℚ
  scheduledSources : List SourceHandle
deriving DecidableEq, Repr

/-- Initial hook state: DISCONNECTED, volume 0, no error, all refs empty,
cursor at 0, no scheduled sources. -/
def initialState : HookState :=
  { connectionState := ConnectionState.DISCONNECTED
    volume := 0
    error := none
    inputAudioContext := false
    outputAudioContext := false
    stream := false
    processor := false
    inputSource := false
    analyser := false
    gainNode := false
    session := none
    nextStartTime := 0
    scheduledSources := [] }

/-- Speed qualifier computed by updateVoiceParams:
speed > 1.2 gives "faster", speed < 0.8 gives "slower", otherwise "normal". -/
def speedQualifier (speed : ℚ) : String :=
  if speed > 1.2 then "faster" else if speed < 0.8 then "slower" else "normal"

/-- The dynamic instruction string composed by updateVoiceParams. -/
def updateInstruction (newConfig : VoiceConfig) (newClonedStyle : Option String) : String :=
  let i1 := "[System Update] Adjust voice settings:"
  let i2 := i1 ++ " Speed: " ++ speedQualifier newConfig.speed ++ "."
  let i3 := i2 ++ " Tone: " ++ newConfig.tone ++ "."
  match newClonedStyle with
  | some st => i3 ++ " Style: " ++ st
  | none => i3

/-- updateVoiceParams: returns early (no message, no state change) unless
connectionState is CONNECTED and sessionRef holds a session; otherwise
composes the instruction and sends it as an in-band text message.  The
second component is the text message sent over the channel, if any. -/
def updateVoiceParams (newConfig : VoiceConfig) (newClonedStyle : Option String)
    (s : HookState) : HookState × Option String :=
  if s.connectionState ≠ ConnectionState.CONNECTED ∨ s.session = none then (s, none)
  else (s, some (updateInstruction newConfig newClonedStyle))

/-- Environment of one connect() attempt: the credential lookup result, the
outcome of getUserMedia, the outcome of opening the live channel, and the
id given to the session promise created by this attempt. -/
structure ConnectEnv where
  apiKey : Option String
  micStream : Except String Unit
  channelOpen : Except String Unit
  sessionId : ℕ
deriving Repr

/-- The catch block of connect(): records the thrown message as the error
and transitions to ERROR.  It touches no refs, so resources acquired before
the throw stay held. -/
def connectCatch (msg : String) (s : HookState) : HookState :=
  { s with error := some msg, connectionState := ConnectionState.ERROR }

/-- connect(): sets CONNECTING and clears the error, then checks the API
key, creates both audio contexts with analyser and gain node, requests the
microphone stream, and opens the live channel, storing the session promise
in sessionRef.  Any failure is caught by connectCatch.  CONNECTED is not
entered here; it is entered by the onopen callback. -/
def connect (env : ConnectEnv) (s : HookState) : HookState :=
  let s1 := { s with connectionState := ConnectionState.CONNECTING, error := none }
  match env.apiKey with
  | none => connectCatch "API Key not found in environment." s1
  | some _ =>
    let s2 := { s1 with inputAudioContext := true, outputAudioContext := true,
                        analyser := true, gainNode := true }
    match env.micStream with
    | Except.error msg => connectCatch msg s2
    | Except.ok _ =>
      let s3 := { s2 with stream := true }
      match env.channelOpen with
      | Except.error msg => connectCatch msg s3
      | Except.ok _ => { s3 with session := some env.sessionId }

/-- The onopen callback: sets CONNECTED, then, if the input context and the
microphone stream are present, creates the media-stream source and the
script processor and starts streaming. -/
def onOpen (s : HookState) : HookState :=
  let s1 := { s with connectionState := ConnectionState.CONNECTED }
  if s1.inputAudioContext && s1.stream then
    { s1 with inputSource := true, processor := true }
  else s1

/-- The audio-scheduling branch of onmessage for one decoded chunk: the
cursor is pulled up to the current device time, the source is started at
the cursor, the cursor advances by the chunk duration, and the new handle
joins the pending set.  Returns the committed start time with the new
state. -/
def scheduleChunk (currentTime duration : ℚ) (s : HookState) : ℚ × HookState :=
  let ns := max s.nextStartTime currentTime
  (ns,
   { s with
     nextStartTime := ns + duration,
     scheduledSources := s.scheduledSources ++
       [{ startTime := ns, duration := duration, finished := false, stopped := false }] })

/-- Raw AudioBufferSourceNode.stop(): marks the handle stopped, but may
throw if playback of the handle already finished; the hook never calls it
outside a try block. -/
def stopRaw (h : SourceHandle) : Except String SourceHandle :=
  if h.finished then Except.error "InvalidStateError"
  else Except.ok { h with stopped := true }

/-- The try-catch around source.stop() in the interruption branch: a throw
from stopRaw is swallowed and the handle is left as it was. -/
def tryStop (h : SourceHandle) : Except String SourceHandle :=
  match stopRaw h with
  | Except.ok h2 => Except.ok h2
  | Except.error _ => Except.ok h

/-- Pure result of the guarded stop call. -/
def stopSafe (h : SourceHandle) : SourceHandle :=
  match stopRaw h with
  | Except.ok h2 => h2
  | Except.error _ => h

/-- The forEach loop over the pending set in the interruption branch, each
iteration guarded by its own try-catch. -/
def stopEach : List SourceHandle → Except String (List SourceHandle)
  | [] => Except.ok []
  | h :: rest =>
    match tryStop h with
    | Except.error e => Except.error e
    | Except.ok h2 =>
      match stopEach rest with
      | Except.error e => Except.error e
      | Except.ok rest2 => Except.ok (h2 :: rest2)

/-- The interruption branch of onmessage: stop every pending source, clear
the pending set, reset the cursor to 0.  The first component records the
handles as the stop calls left them. -/
def interruptPlayback (s : HookState) : List SourceHandle × HookState :=
  (s.scheduledSources.map stopSafe,
   { s with scheduledSources := [], nextStartTime := 0 })

/-- Exception-aware rendering of the interruption branch, mirroring that
the only fallible calls are the per-source guarded stops. -/
def interruptE (s : HookState) : Except String (List SourceHandle × HookState) :=
  match stopEach s.scheduledSources with
  | Except.error e => Except.error e
  | Except.ok stopped =>
    Except.ok (stopped, { s with scheduledSources := [], nextStartTime := 0 })

/-- An inbound server message: an optional inline audio payload (already
decoded, represented by its duration) and the interrupted flag. -/
structure ServerMessage where
  audioDuration : Option ℚ
  interrupted : Bool
deriving DecidableEq, Repr

/-- The onmessage callback: the audio payload, when present and when the
output context and gain node exist, is scheduled; then the interrupted
flag, when set, clears all pending playback. -/
def onMessage (msg : ServerMessage) (currentTime : ℚ) (s : HookState) : HookState :=
  let s1 :=
    match msg.audioDuration with
    | some d =>
      if s.outputAudioContext && s.gainNode then (scheduleChunk currentTime d s).2 else s
    | none => s
  if msg.interrupted then (interruptPlayback s1).2 else s1

/-- disconnect(): stops the microphone tracks, disconnects the processor
and input source, closes both audio contexts, requests a best-effort
channel close, then sets DISCONNECTED, volume 0, clears the pending set
and resets the cursor.  The error cell, the analyser and gain refs and
sessionRef are left untouched by the source. -/
def disconnect (s : HookState) : HookState :=
  { s with
    stream := false
    processor := false
    inputSource := false
    inputAudioContext := false
    outputAudioContext := false
    connectionState := ConnectionState.DISCONNECTED
    volume := 0
    scheduledSources := []
    nextStartTime := 0 }

/-- Closing the session channel: fails when the channel is already closed. -/
def closeSession (channelAlreadyClosed : Bool) : Except String Unit :=
  if channelAlreadyClosed then Except.error "channel already closed" else Except.ok ()

/-- Exception-aware rendering of disconnect(): the close request on the
stored session promise is wrapped in a catch handler that swallows any
failure, so teardown always completes and ends in the disconnect state. -/
def disconnectE (channelAlreadyClosed : Bool) (s : HookState) : Except String HookState :=
  let closeResult : Except String Unit :=
    match s.session with
    | some _ =>
      match closeSession channelAlreadyClosed with
      | Except.ok u => Except.ok u
      | Except.error _ => Except.ok ()
    | none => Except.ok ()
  match closeResult with
  | Except.error e => Except.error e
  | Except.ok _ => Except.ok (disconnect s)

/-- A lifecycle event delivered by a session promise with a given id. -/
inductive SessionEvent where
  | opened
  | message (msg : ServerMessage) (currentTime : ℚ)
  | closed
  | errored (msg : String)

/-- Dispatch of a session callback.  The source installs the same four
callbacks on every session promise and none of them compares its session
against sessionRef, so the id of the session the event came from is
ignored: a stale session mutates the shared state exactly like the
current one. -/
def handleEvent (_fromSession : ℕ) (e : SessionEvent) (s : HookState) : HookState :=
  match e with
  | SessionEvent.opened => onOpen s
  | SessionEvent.message m t => onMessage m t s
  | SessionEvent.closed => { s with connectionState := ConnectionState.DISCONNECTED }
  | SessionEvent.errored msg =>
    { s with error := some msg, connectionState := ConnectionState.ERROR }

/-- Iterated scheduling of a sequence of chunks, each given as a pair of
the device time at which it is enqueued and its duration; returns the list
of committed start times together with the final state. -/
def runEnqueues (s : HookState) : List (ℚ × ℚ) → List ℚ × HookState
  | [] => ([], s)
  | (t, d) :: rest =>
    ((scheduleChunk t d s).1 :: (runEnqueues (scheduleChunk t d s).2 rest).1,
     (runEnqueues (scheduleChunk t d s).2 rest).2)

/-! Concrete environments and states used by witnesses and counterexamples. -/

/-- A voice configuration mirroring INITIAL_CONFIG of the app. -/
def exampleConfig : VoiceConfig :=
  { voiceName := "Kore", speed := 1, pitch := 0, tone := "Professional",
    systemInstruction := "You are an advanced voice AI. Respond succinctly." }

/-- Environment of a connect attempt with no credential configured. -/
def envNoKey : ConnectEnv :=
  { apiKey := none, micStream := Except.ok (), channelOpen := Except.ok (), sessionId := 1 }

/-- Environment of a connect attempt where the user denies microphone access. -/
def envPermissionDenied : ConnectEnv :=
  { apiKey := some "key", micStream := Except.error "Permission denied",
    channelOpen := Except.ok (), sessionId := 1 }

/-- Environment of a fully successful connect attempt creating session sid. -/
def envOk (sid : ℕ) : ConnectEnv :=
  { apiKey := some "key", micStream := Except.ok (), channelOpen := Except.ok (),
    sessionId := sid }

/-- A connected state with two pending scheduled sources, the second of
which already finished playing. -/
def pendingTwoState : HookState :=
  { initialState with
    connectionState := ConnectionState.CONNECTED
    outputAudioContext := true
    gainNode := true
    session := some 1
    nextStartTime := 5
    scheduledSources :=
      [{ startTime := 0, duration := 2, finished := false, stopped := false },
       { startTime := 2, duration := 3, finished := true, stopped := false }] }

/-! Helper lemmas. -/

/-- The guarded stop call never raises and computes stopSafe. -/
theorem tryStop_eq_stopSafe (h : SourceHandle) : tryStop h = Except.ok (stopSafe h) := by
  cases hr : stopRaw h <;> simp [tryStop, stopSafe, hr]

/-- The guarded stop loop never raises and maps stopSafe over the set. -/
theorem stopEach_ok (l : List SourceHandle) : stopEach l = Except.ok (l.map stopSafe) := by
  induction l with
  | nil => rfl
  | cons h rest ih => simp [stopEach, tryStop_eq_stopSafe, ih]

/-- The start-time list of a run of enqueues has one entry per chunk. -/
theorem runEnqueues_length (chunks : List (ℚ × ℚ)) : ∀ s : HookState,
    ((runEnqueues s chunks).1).length = chunks.length := by
  induction chunks with
  | nil => intro s; rfl
  | cons p rest ih =>
    intro s
    obtain ⟨t, d⟩ := p
    simpa [runEnqueues] using ih (scheduleChunk t d s).2

/-- Consecutive committed start times are separated by at least the
duration of the earlier chunk. -/
theorem runEnqueues_chain (chunks : List (ℚ × ℚ)) : ∀ (s : HookState) (i : ℕ)
    (h0 : i < ((runEnqueues s chunks).1).length)
    (h1 : i + 1 < ((runEnqueues s chunks).1).length)
    (h2 : i < chunks.length),
    ((runEnqueues s chunks).1).get ⟨i, h0⟩ + (chunks.get ⟨i, h2⟩).2
      ≤ ((runEnqueues s chunks).1).get ⟨i + 1, h1⟩ := by
  induction chunks with
  | nil =>
    intro s i h0 h1 h2
    exact absurd h2 (by simp)
  | cons p rest ih =>
    obtain ⟨t, d⟩ := p
    intro s i h0 h1 h2
    cases i with
    | zero =>
      cases rest with
      | nil => simp [runEnqueues] at h1
      | cons q rest2 =>
        obtain ⟨t2, d2⟩ := q
        exact le_max_left _ _
    | succ j =>
      have h0r : j < ((runEnqueues (scheduleChunk t d s).2 rest).1).length := by
        have := h1
        simp only [runEnqueues, List.length_cons] at this
        omega
      have h1r : j + 1 < ((runEnqueues (scheduleChunk t d s).2 rest).1).length := by
        have := h1
        simp only [runEnqueues, List.length_cons] at this
        omega
      have h2r : j < rest.length := by
        simpa using h2
      exact ih (scheduleChunk t d s).2 j h0r h1r h2r

/-! Claim theorems. -/

/-- C1: each enqueue pulls the cursor up to the current device time, starts
the chunk exactly there and advances the cursor by the chunk duration, so
over any sequence of enqueued chunks with non-negative durations the
committed start times are non-decreasing and each start time is at least
the previous start time plus the previous duration. -/
theorem enqueue_starts_gapless (chunks : List (ℚ × ℚ)) (s : HookState)
    (hd : ∀ p ∈ chunks, 0 ≤ p.2) (i : ℕ)
    (h0 : i < ((runEnqueues s chunks).1).length)
    (h1 : i + 1 < ((runEnqueues s chunks).1).length)
    (h2 : i < chunks.length) :
    ((runEnqueues s chunks).1).get ⟨i, h0⟩ + (chunks.get ⟨i, h2⟩).2
        ≤ ((runEnqueues s chunks).1).get ⟨i + 1, h1⟩ ∧
    ((runEnqueues s chunks).1).get ⟨i, h0⟩ ≤ ((runEnqueues s chunks).1).get ⟨i + 1, h1⟩ := by
  have hc := runEnqueues_chain chunks s i h0 h1 h2
  refine ⟨hc, ?_⟩
  have hdpos : 0 ≤ (chunks.get ⟨i, h2⟩).2 := hd _ (chunks.get_mem _ _)
  linarith

/-- C2: handling an interruption signal force-stops every handle in the
pending set, empties the pending set, resets the cursor to 0, and the next
enqueued chunk then starts at or after the current device time. -/
theorem interrupt_resets_scheduler (s : HookState) (t : ℚ) :
    onMessage { audioDuration := none, interrupted := true } t s = (interruptPlayback s).2 ∧
    ((interruptPlayback s).2).scheduledSources = [] ∧
    ((interruptPlayback s).2).nextStartTime = 0 ∧
    (∀ h ∈ (interruptPlayback s).1, h.stopped = true ∨ h.finished = true) ∧
    (∀ t2 d : ℚ, t2 ≤ (scheduleChunk t2 d (interruptPlayback s).2).1) := by
  refine ⟨rfl, rfl, rfl, ?_, ?_⟩
  · intro h hm
    rcases List.mem_map.mp hm with ⟨h0, _, rfl⟩
    unfold stopSafe stopRaw
    by_cases hf : h0.finished = true <;> simp [hf]
  · intro t2 d
    show t2 ≤ max (0 : ℚ) t2
    exact le_max_right _ _

/-- Witness for C1: two chunks of durations 2 and 1, the first enqueued at
device time 0, the second late at device time 3; the committed starts are
0 and 3, which are non-decreasing and separated by at least 2. -/
theorem enqueue_starts_gapless_witness :
    (∀ p ∈ ([((0 : ℚ), (2 : ℚ)), (3, 1)] : List (ℚ × ℚ)), 0 ≤ p.2) ∧
    (((runEnqueues initialState [((0 : ℚ), (2 : ℚ)), (3, 1)]).1).get ⟨0, by simp [runEnqueues]⟩
        + (([((0 : ℚ), (2 : ℚ)), (3, 1)] : List (ℚ × ℚ)).get ⟨0, by simp⟩).2
      ≤ ((runEnqueues initialState [((0 : ℚ), (2 : ℚ)), (3, 1)]).1).get
          ⟨1, by simp [runEnqueues]⟩) ∧
    ((runEnqueues initialState [((0 : ℚ), (2 : ℚ)), (3, 1)]).1).get ⟨0, by simp [runEnqueues]⟩
      ≤ ((runEnqueues initialState [((0 : ℚ), (2 : ℚ)), (3, 1)]).1).get
          ⟨1, by simp [runEnqueues]⟩ := by
  have hd : ∀ p ∈ ([((0 : ℚ), (2 : ℚ)), (3, 1)] : List (ℚ × ℚ)), 0 ≤ p.2 := by
    intro p hp
    simp only [List.mem_cons, List.not_mem_nil, or_false] at hp
    rcases hp with rfl | rfl <;> norm_num
  have h := enqueue_starts_gapless [((0 : ℚ), (2 : ℚ)), (3, 1)] initialState hd 0
    (by simp [runEnqueues]) (by simp [runEnqueues]) (by simp)
  exact ⟨hd, h.1, h.2⟩

/-- Witness for C2: interrupting the state with two pending sources leaves
an empty pending set, cursor 0, a first handle that was stopped, and a
subsequent chunk enqueued at device time 3 starts at time 3 or later. -/
theorem interrupt_resets_scheduler_witness :
    ((interruptPlayback pendingTwoState).2).scheduledSources = [] ∧
    ((interruptPlayback pendingTwoState).2).nextStartTime = 0 ∧
    ((SourceHandle.mk 0 2 false true).stopped = true ∨
      (SourceHandle.mk 0 2 false true).finished = true) ∧
    (3 : ℚ) ≤ (scheduleChunk 3 1 (interruptPlayback pendingTwoState).2).1 := by
  have h := interrupt_resets_scheduler pendingTwoState 0
  refine ⟨h.2.1, h.2.2.1, ?_, h.2.2.2.2 3 1⟩
  refine h.2.2.2.1 (SourceHandle.mk 0 2 false true) ?_
  have he : (interruptPlayback pendingTwoState).1 =
      [SourceHandle.mk 0 2 false true, SourceHandle.mk 2 3 true false] := rfl
  rw [he]
  exact List.mem_cons_self _ _

/-- C4: disconnect is total and idempotent: from any state it completes
without raising (a failing channel close is swallowed by the catch
handler), calling it twice equals calling it once, and it always ends in
the DISCONNECTED state. -/
theorem disconnect_idempotent_total (channelAlreadyClosed : Bool) (s : HookState) :
    disconnectE channelAlreadyClosed s = Except.ok (disconnect s) ∧
    disconnect (disconnect s) = disconnect s ∧
    (disconnect s).connectionState = ConnectionState.DISCONNECTED := by
  refine ⟨?_, rfl, rfl⟩
  unfold disconnectE closeSession
  cases hs : s.session <;> cases channelAlreadyClosed <;> simp

/-- C6: updateVoiceParams called in any state other than CONNECTED is a
no-op: the state is returned unchanged and no message is sent. -/
theorem updateVoiceParams_noop_when_not_connected (newConfig : VoiceConfig)
    (newClonedStyle : Option String) (s : HookState)
    (h : s.connectionState ≠ ConnectionState.CONNECTED) :
    updateVoiceParams newConfig newClonedStyle s = (s, none) := by
  unfold updateVoiceParams
  rw [if_pos (Or.inl h)]

/-- Witness for C6: in the initial (disconnected) state updateVoiceParams
changes nothing and sends nothing. -/
theorem updateVoiceParams_noop_witness :
    initialState.connectionState ≠ ConnectionState.CONNECTED ∧
    updateVoiceParams exampleConfig none initialState = (initialState, none) :=
  ⟨by decide,
   updateVoiceParams_noop_when_not_connected exampleConfig none initialState (by decide)⟩

/-- C9: the interruption handler is total and safe: it never raises (each
stop call is individually guarded), it may run in any scheduler state
including an empty pending set, and stopping an already-finished handle is
a no-op. -/
theorem interrupt_total_and_safe (s : HookState) :
    interruptE s = Except.ok (interruptPlayback s) ∧
    ((interruptPlayback s).2).scheduledSources = [] ∧
    ((interruptPlayback s).2).nextStartTime = 0 ∧
    (∀ h : SourceHandle, h.finished = true → tryStop h = Except.ok h ∧ stopSafe h = h) := by
  refine ⟨?_, rfl, rfl, ?_⟩
  · unfold interruptE interruptPlayback
    rw [stopEach_ok]
  · intro h hf
    constructor <;> simp [tryStop, stopSafe, stopRaw, hf]

/-- Witness for C9: the handler runs on the empty pending set of the
initial state, and stopping a concrete finished handle is a no-op. -/
theorem interrupt_total_and_safe_witness :
    interruptE initialState = Except.ok (interruptPlayback initialState) ∧
    tryStop (SourceHandle.mk 2 3 true false) = Except.ok (SourceHandle.mk 2 3 true false) := by
  refine ⟨(interrupt_total_and_safe initialState).1, ?_⟩
  exact ((interrupt_total_and_safe initialState).2.2.2 (SourceHandle.mk 2 3 true false) rfl).1

/-- C10: after disconnect the exposed volume is 0, the pending set is
empty and the cursor is 0, whatever the prior state was. -/
theorem disconnect_resets_outputs (s : HookState) :
    (disconnect s).volume = 0 ∧
    (disconnect s).scheduledSources = [] ∧
    (disconnect s).nextStartTime = 0 :=
  ⟨rfl, rfl, rfl⟩

/-- Case analysis of the speed qualifier computed by updateVoiceParams. -/
theorem speedQualifier_cases (sp : ℚ) :
    (speedQualifier sp = "faster" ↔ 1.2 < sp) ∧
    (speedQualifier sp = "slower" ↔ sp < 0.8) ∧
    (speedQualifier sp = "normal" ↔ (0.8 ≤ sp ∧ sp ≤ 1.2)) := by
  have hlt : (0.8 : ℚ) < 1.2 := by norm_num
  unfold speedQualifier
  split_ifs with hf hs
  · refine ⟨⟨fun _ => hf, fun _ => rfl⟩, ⟨fun he => ?_, fun hc => ?_⟩,
      ⟨fun he => ?_, fun hc => ?_⟩⟩
    · exact absurd he (by decide)
    · exact absurd hc (by linarith)
    · exact absurd he (by decide)
    · exact absurd hf (by push_neg; exact hc.2)
  · refine ⟨⟨fun he => ?_, fun hc => ?_⟩, ⟨fun _ => hs, fun _ => rfl⟩,
      ⟨fun he => ?_, fun hc => ?_⟩⟩
    · exact absurd he (by decide)
    · exact absurd hc (by push_neg; linarith)
    · exact absurd he (by decide)
    · exact absurd hs (by push_neg; exact hc.1)
  · push_neg at hf hs
    refine ⟨⟨fun he => ?_, fun hc => ?_⟩, ⟨fun he => ?_, fun hc => ?_⟩,
      ⟨fun _ => ⟨hs, hf⟩, fun _ => rfl⟩⟩
    · exact absurd he (by decide)
    · exact absurd hc (by push_neg; exact hf)
    · exact absurd he (by decide)
    · exact absurd hc (by push_neg; exact hs)

/-- C7: while CONNECTED with a stored session, updateVoiceParams sends an
in-band text message over the channel whose speed qualifier is faster
exactly when speed is above 1.2, slower exactly when speed is below 0.8
and normal otherwise, followed by the tone label and, when a cloned style
is supplied, the style text. -/
theorem updateVoiceParams_message (newConfig : VoiceConfig) (newClonedStyle : Option String)
    (s : HookState) (hc : s.connectionState = ConnectionState.CONNECTED)
    (hs : s.session ≠ none) :
    updateVoiceParams newConfig newClonedStyle s
        = (s, some (updateInstruction newConfig newClonedStyle)) ∧
    (∀ st : String, newClonedStyle = some st →
      updateInstruction newConfig newClonedStyle
        = "[System Update] Adjust voice settings:" ++ " Speed: "
            ++ speedQualifier newConfig.speed ++ "." ++ " Tone: " ++ newConfig.tone ++ "."
            ++ " Style: " ++ st) ∧
    (newClonedStyle = none →
      updateInstruction newConfig newClonedStyle
        = "[System Update] Adjust voice settings:" ++ " Speed: "
            ++ speedQualifier newConfig.speed ++ "." ++ " Tone: " ++ newConfig.tone ++ ".") ∧
    (speedQualifier newConfig.speed = "faster" ↔ 1.2 < newConfig.speed) ∧
    (speedQualifier newConfig.speed = "slower" ↔ newConfig.speed < 0.8) ∧
    (speedQualifier newConfig.speed = "normal" ↔
        (0.8 ≤ newConfig.speed ∧ newConfig.speed ≤ 1.2)) := by
  refine ⟨?_, ?_, ?_, (speedQualifier_cases newConfig.speed).1,
    (speedQualifier_cases newConfig.speed).2.1, (speedQualifier_cases newConfig.speed).2.2⟩
  · unfold updateVoiceParams
    rw [if_neg (by simp [hc, hs])]
  · intro st hst
    subst hst
    rfl
  · intro hn
    subst hn
    rfl

/-- Witness for C7: in a connected state with session 1, a config of speed
1.5 and tone Professional with no cloned style produces exactly the faster
message. -/
theorem updateVoiceParams_message_witness :
    updateVoiceParams { exampleConfig with speed := 1.5 } none pendingTwoState
        = (pendingTwoState,
           some (updateInstruction { exampleConfig with speed := 1.5 } none)) ∧
    updateInstruction { exampleConfig with speed := 1.5 } none
        = "[System Update] Adjust voice settings:" ++ " Speed: "
            ++ speedQualifier (1.5 : ℚ) ++ "." ++ " Tone: " ++ "Professional" ++ "." ∧
    speedQualifier ((1.5 : ℚ)) = "faster" := by
  have h := updateVoiceParams_message { exampleConfig with speed := 1.5 } none
    pendingTwoState rfl (by simp [pendingTwoState, initialState])
  refine ⟨h.1, h.2.2.1 rfl, ?_⟩
  exact (h.2.2.2.1).mpr (by norm_num)

/-- C3 counterexample: when the microphone permission is denied, connect
ends in ERROR with the failure message, but the freshly created input and
output audio contexts are left open, not released. -/
theorem connect_failure_leaks_contexts :
    (connect envPermissionDenied initialState).connectionState = ConnectionState.ERROR ∧
    (connect envPermissionDenied initialState).error = some "Permission denied" ∧
    (connect envPermissionDenied initialState).inputAudioContext = true ∧
    (connect envPermissionDenied initialState).outputAudioContext = true :=
  ⟨rfl, rfl, rfl, rfl⟩

/-- C3 (amended): every connect failure ends in ERROR carrying the failure
message, but connect releases nothing: in the missing-credential case no
resources had been acquired yet, while after a microphone or channel-open
failure the audio contexts (and, for a channel failure, the microphone
stream) remain held. -/
theorem connect_failure_amended (env : ConnectEnv) (s : HookState) :
    (env.apiKey = none →
      (connect env s).connectionState = ConnectionState.ERROR ∧
      (connect env s).error = some "API Key not found in environment." ∧
      (connect env s).inputAudioContext = s.inputAudioContext ∧
      (connect env s).outputAudioContext = s.outputAudioContext ∧
      (connect env s).stream = s.stream) ∧
    (∀ k msg, env.apiKey = some k → env.micStream = Except.error msg →
      (connect env s).connectionState = ConnectionState.ERROR ∧
      (connect env s).error = some msg ∧
      (connect env s).inputAudioContext = true ∧
      (connect env s).outputAudioContext = true ∧
      (connect env s).stream = s.stream) ∧
    (∀ k msg, env.apiKey = some k → env.micStream = Except.ok () →
        env.channelOpen = Except.error msg →
      (connect env s).connectionState = ConnectionState.ERROR ∧
      (connect env s).error = some msg ∧
      (connect env s).inputAudioContext = true ∧
      (connect env s).outputAudioContext = true ∧
      (connect env s).stream = true) := by
  refine ⟨?_, ?_, ?_⟩
  · intro h
    simp [connect, h, connectCatch]
  · intro k msg hk hm
    simp [connect, hk, hm, connectCatch]
  · intro k msg hk hm hch
    simp [connect, hk, hm, hch, connectCatch]

/-- Witness for C3 (amended): with no credential configured, connect from
the initial state ends in ERROR with a non-empty message and no device
handle open. -/
theorem connect_failure_amended_witness :
    (connect envNoKey initialState).connectionState = ConnectionState.ERROR ∧
    (connect envNoKey initialState).error = some "API Key not found in environment." ∧
    (connect envNoKey initialState).inputAudioContext = false ∧
    (connect envNoKey initialState).outputAudioContext = false ∧
    (connect envNoKey initialState).stream = false := by
  have h := (connect_failure_amended envNoKey initialState).1 rfl
  refine ⟨h.1, h.2.1, ?_, ?_, ?_⟩
  · rw [h.2.2.1]; rfl
  · rw [h.2.2.2.1]; rfl
  · rw [h.2.2.2.2]; rfl

/-- State reached by: connect creating session 1, session 1 opened,
disconnect, connect creating session 2, session 2 opened.  The new
session is CONNECTED and sessionRef holds session 2. -/
def staleScenarioState : HookState :=
  handleEvent 2 SessionEvent.opened
    (connect (envOk 2)
      (disconnect (handleEvent 1 SessionEvent.opened (connect (envOk 1) initialState))))

/-- C5 evidence: with session 2 connected, the onclose callback of the
stale session 1 still sets the shared connection state to DISCONNECTED,
and its onerror callback sets the shared error and ERROR state: no
callback compares its session with sessionRef, so a stale session does
affect the subsequently created one. -/
theorem stale_onclose_changes_new_session :
    staleScenarioState.connectionState = ConnectionState.CONNECTED ∧
    staleScenarioState.session = some 2 ∧
    (handleEvent 1 SessionEvent.closed staleScenarioState).connectionState
        = ConnectionState.DISCONNECTED ∧
    (handleEvent 1 (SessionEvent.errored "stale failure") staleScenarioState).connectionState
        = ConnectionState.ERROR ∧
    (handleEvent 1 (SessionEvent.errored "stale failure") staleScenarioState).error
        = some "stale failure" :=
  ⟨rfl, rfl, rfl, rfl, rfl⟩

/-- State reached by a failed connect (missing credential) followed by
disconnect. -/
def errorThenDisconnectState : HookState :=
  disconnect (connect envNoKey initialState)

/-- C8 counterexample: after a failed connect followed by disconnect the
session is DISCONNECTED yet still exposes the old error message, so the
error is not present only in the ERROR state. -/
theorem error_visible_when_disconnected :
    errorThenDisconnectState.connectionState = ConnectionState.DISCONNECTED ∧
    errorThenDisconnectState.error = some "API Key not found in environment." :=
  ⟨rfl, rfl⟩

/-- C8 (amended): connect clears any prior error on entering CONNECTING
(in particular a successful connect leaves CONNECTING with no error), but
disconnect leaves the error cell untouched, so a Disconnected session may
still expose the previous error message. -/
theorem error_lifecycle_amended (env : ConnectEnv) (s : HookState) :
    ((connect env s).connectionState = ConnectionState.CONNECTING →
      (connect env s).error = none) ∧
    (disconnect s).error = s.error ∧
    (env.apiKey ≠ none → env.micStream = Except.ok () → env.channelOpen = Except.ok () →
      (connect env s).connectionState = ConnectionState.CONNECTING ∧
      (connect env s).error = none) := by
  obtain ⟨key, mic, chan, sid⟩ := env
  refine ⟨?_, rfl, ?_⟩
  · cases key <;> cases mic <;> cases chan <;> simp [connect, connectCatch]
  · intro hk hm hch
    cases key
    · exact absurd rfl hk
    · cases hm
      cases hch
      exact ⟨rfl, rfl⟩

/-- Witness for C8 (amended): a successful connect from the initial state
ends CONNECTING with no error, and disconnect preserves the error cell of
the state left by a failed connect. -/
theorem error_lifecycle_amended_witness :
    (connect (envOk 1) initialState).connectionState = ConnectionState.CONNECTING ∧
    (connect (envOk 1) initialState).error = none ∧
    (disconnect (connect envNoKey initialState)).error
        = (connect envNoKey initialState).error := by
  have h := (error_lifecycle_amended (envOk 1) initialState).2.2
    (by simp [envOk]) rfl rfl
  exact ⟨h.1, h.2, (error_lifecycle_amended (envOk 1) (connect envNoKey initialState)).2.1⟩

end VoiceForge
